import Mathlib

/-!
Verification development for the cart/checkout core of the ABCDE
e-commerce repository.  The repository contains parallel
implementations of the same domain:

* a Go backend (handlers `CreateOrder`, `AddToCart`, `GetUserOrders`,
  models in `models.go`), embedded below with `Go`-prefixed structures;
* a Node/Mongoose backend (`src/backend/src/controllers/cartController.js`,
  `src/backend/src/models/Cart.js`, `backend/controllers/orders.js`
  with `backend/models/Order.js`), embedded below with the
  `addItemToCart` / `updateCartItem` / `getCart` / `createOrder`
  functions and the `saveCart` / `orderPreSave` persistence hooks.

Currency amounts are modelled as rationals; the JavaScript
`Number(x.toFixed(2))` two-decimal rounding is modelled by `round2`.
-/

/-- Two-decimal rounding, modelling JavaScript `Number(x.toFixed(2))`:
round to the nearest multiple of 1/100, ties toward +∞ (the ECMAScript
`toFixed` tie-break picks the larger candidate). -/
def round2 (q : ℚ) : ℚ := (⌊q * 100 + 1 / 2⌋ : ℚ) / 100

/-! ## Go backend data model (models.go) -/

/-- Go `models.Item`: catalog row with a current price. -/
structure GoItem where
  id : Nat
  name : String
  price : ℚ
deriving Repr, DecidableEq

/-- Go `models.Cart`: one cart row; `isCheckedOut` is the status flag. -/
structure GoCart where
  id : Nat
  userId : Nat
  isCheckedOut : Bool
  checkedOutAt : Option Nat
deriving Repr, DecidableEq

/-- Go `models.CartItem`: a line of a cart, referencing a catalog item.
The Go model stores no price snapshot on the line. -/
structure GoCartItem where
  cartId : Nat
  itemId : Nat
  quantity : Nat
deriving Repr, DecidableEq

/-- Go `models.Order`: stores only the owning user, source cart,
frozen total and status — no per-line snapshot. -/
structure GoOrder where
  id : Nat
  userId : Nat
  cartId : Nat
  total : ℚ
  status : String
deriving Repr, DecidableEq

/-- The Go backend's database state (tables relevant to checkout). -/
structure GoDB where
  items : List GoItem
  carts : List GoCart
  cartItems : List GoCartItem
  orders : List GoOrder
  nextOrderId : Nat
deriving Repr, DecidableEq

/-- `tx.Where("user_id = ? AND is_checked_out = ?", u, false).First(&cart)`:
the user's open cart, if any. -/
def findOpenCart (db : GoDB) (u : Nat) : Option GoCart :=
  db.carts.find? (fun c => c.userId == u && !c.isCheckedOut)

/-- The `CartItems` association of one cart (GORM preload). -/
def cartItemsOf (db : GoDB) (cartId : Nat) : List GoCartItem :=
  db.cartItems.filter (fun ci => ci.cartId == cartId)

/-- Current catalog price of an item; a missing row preloads as the
GORM zero value, whose price is 0. -/
def itemPrice (db : GoDB) (itemId : Nat) : ℚ :=
  match db.items.find? (fun it => it.id == itemId) with
  | some it => it.price
  | none => 0

/-- Current catalog name of an item (zero value `""` when missing). -/
def goItemName (db : GoDB) (itemId : Nat) : String :=
  match db.items.find? (fun it => it.id == itemId) with
  | some it => it.name
  | none => ""

/-- `total += item.Item.Price * float64(item.Quantity)` over the cart's
lines, with the item prices read from the current catalog. -/
def goOrderTotal (db : GoDB) (lines : List GoCartItem) : ℚ :=
  lines.foldl (fun acc ci => acc + itemPrice db ci.itemId * (ci.quantity : ℚ)) 0

/-- `cart.IsCheckedOut = true; cart.CheckedOutAt = &now; tx.Save(&cart)`. -/
def markCheckedOut (carts : List GoCart) (cartId : Nat) (now : Nat) : List GoCart :=
  carts.map (fun c =>
    if c.id == cartId then { c with isCheckedOut := true, checkedOutAt := some now } else c)

/-- Error outcomes of the Go `CreateOrder` handler.  `commitFailed`
covers every in-transaction storage failure (`tx.Create`, `tx.Save`,
`tx.Commit`), all of which the handler answers with a rollback. -/
inductive GoCheckoutError
  | noActiveCart
  | emptyCart
  | commitFailed
deriving Repr, DecidableEq

/-- Go handler `CreateOrder` (handlers/orders.go).  The whole body runs
inside one GORM transaction: the order insert and the cart update are
staged and take effect only if the commit succeeds, which the
`commitOk` flag models; every failure path calls `tx.Rollback()`, so
the database is returned unchanged there. -/
def CreateOrder (db : GoDB) (u : Nat) (now : Nat) (commitOk : Bool) :
    Except GoCheckoutError GoOrder × GoDB :=
  match findOpenCart db u with
  | none => (.error .noActiveCart, db)
  | some cart =>
    let lines := cartItemsOf db cart.id
    if lines.isEmpty then (.error .emptyCart, db)
    else
      let order : GoOrder :=
        { id := db.nextOrderId, userId := u, cartId := cart.id,
          total := goOrderTotal db lines, status := "completed" }
      if commitOk then
        (.ok order,
          { db with
              orders := db.orders ++ [order],
              carts := markCheckedOut db.carts cart.id now,
              nextOrderId := db.nextOrderId + 1 })
      else (.error .commitFailed, db)

/-- One line of the order view built by `GetUserOrders`. -/
structure GoOrderLineView where
  id : Nat
  name : String
  price : ℚ
  quantity : Nat
deriving Repr, DecidableEq

/-- One order of the view built by `GetUserOrders`. -/
structure GoOrderView where
  id : Nat
  total : ℚ
  lines : List GoOrderLineView
deriving Repr, DecidableEq

/-- Go handler `GetUserOrders` (handlers/orders.go): for each of the
user's orders it renders the stored total, and re-reads each line's
name and price from the catalog row preloaded at request time
(`order.Cart.CartItems.Item`).  (The handler sorts by `created_at`
descending; the view content per order is what matters here.) -/
def GetUserOrders (db : GoDB) (u : Nat) : List GoOrderView :=
  (db.orders.filter (fun o => o.userId == u)).map (fun o =>
    { id := o.id, total := o.total,
      lines := (cartItemsOf db o.cartId).map (fun ci =>
        { id := ci.itemId, name := goItemName db ci.itemId,
          price := itemPrice db ci.itemId, quantity := ci.quantity }) })

/-- An external catalog price update (the item admin route); not part
of the cart/checkout core, used to state frozen-order properties. -/
def setItemPrice (db : GoDB) (itemId : Nat) (p : ℚ) : GoDB :=
  { db with items := db.items.map (fun it =>
      if it.id == itemId then { it with price := p } else it) }

/-! ## Node backend: src/backend/src/models/Item.js and
src/backend/src/models/Cart.js with
src/backend/src/controllers/cartController.js -/

/-- Mongoose `Item` (src/backend/src/models/Item.js): the catalog row
fields read by the cart controller. -/
structure Item9 where
  id : Nat
  name : String
  image : String
  price : ℚ
  countInStock : Nat
deriving Repr, DecidableEq

/-- Mongoose `cartItemSchema` (src/backend/src/models/Cart.js): one
embedded cart line, with a price snapshot taken at add time. -/
structure CItem where
  item : Nat
  name : String
  image : String
  price : ℚ
  quantity : ℤ
deriving Repr, DecidableEq

/-- Mongoose `cartSchema` (src/backend/src/models/Cart.js): one cart
per user with denormalised totals. -/
structure CartState where
  user : Nat
  items : List CItem
  totalItems : ℤ
  totalPrice : ℚ
deriving Repr, DecidableEq

/-- `cartSchema.pre('save')`: recompute `totalItems` and `totalPrice`
from the lines before every persist. -/
def saveCart (user : Nat) (items : List CItem) : CartState :=
  { user := user,
    items := items,
    totalItems := items.foldl (fun t i => t + i.quantity) 0,
    totalPrice := items.foldl (fun t i => t + i.price * (i.quantity : ℚ)) 0 }

/-- `Item.findById(itemId)`. -/
def findItem (catalog : List Item9) (id : Nat) : Option Item9 :=
  catalog.find? (fun it => it.id == id)

/-- The line returned by `cart.items.findIndex(c => c.item === itemId)`
(first match), if any. -/
def lookupLine : List CItem → Nat → Option CItem
  | [], _ => none
  | i :: rest, itemId => if i.item == itemId then some i else lookupLine rest itemId

/-- The assignment `cart.items[itemIndex].quantity = q` at the index
found by `findIndex`: set the first matching line's quantity, leaving
every other field and every other line unchanged. -/
def setQty (items : List CItem) (itemId : Nat) (q : ℤ) : List CItem :=
  match items with
  | [] => []
  | i :: rest =>
    if i.item == itemId then { i with quantity := q } :: rest
    else i :: setQty rest itemId q

/-- `cart.items.splice(itemIndex, 1)` at the index found by
`findIndex`: drop the first matching line. -/
def removeLine (items : List CItem) (itemId : Nat) : List CItem :=
  match items with
  | [] => []
  | i :: rest => if i.item == itemId then rest else i :: removeLine rest itemId

/-- `let cart = await Cart.findOne({user}); if (!cart) cart = new
Cart({user, items: []})`: the stored cart, or a fresh empty one for
the user. -/
def theCart (u : Nat) : Option CartState → CartState
  | some c => c
  | none => { user := u, items := [], totalItems := 0, totalPrice := 0 }

/-- Error responses of the cart controller
(src/backend/src/controllers/cartController.js). -/
inductive CartError
  | itemNotFound
  | insufficientStock
  | cartNotFound
  | itemNotInCart
deriving Repr, DecidableEq

/-- Controller `addItemToCart`: resolve the catalog item (404 when
missing), reject when stock is short, then either bump the existing
line's quantity in place (re-checking stock against the new quantity)
or push a new line carrying a snapshot of the item's current price,
and persist through the `pre('save')` hook.  A missing cart is lazily
created empty for the user. -/
def addItemToCart (catalog : List Item9) (u : Nat) (cartOpt : Option CartState)
    (itemId : Nat) (quantity : ℤ) : Except CartError CartState :=
  match findItem catalog itemId with
  | none => .error .itemNotFound
  | some it =>
    if (it.countInStock : ℤ) < quantity then .error .insufficientStock
    else
      let cart := theCart u cartOpt
      match lookupLine cart.items itemId with
      | some line =>
        let newQuantity := line.quantity + quantity
        if newQuantity > (it.countInStock : ℤ) then .error .insufficientStock
        else .ok (saveCart cart.user (setQty cart.items itemId newQuantity))
      | none =>
        .ok (saveCart cart.user
          (cart.items ++ [{ item := itemId, name := it.name, image := it.image,
                            price := it.price, quantity := quantity }]))

/-- Controller `updateCartItem`: resolve the catalog item (404 when
missing), reject quantities above stock, 404 when the user has no cart
or the line is absent; with the line present, a quantity ≤ 0 removes
the line and a positive quantity overwrites it, persisting through
the `pre('save')` hook. -/
def updateCartItem (catalog : List Item9) (cartOpt : Option CartState)
    (itemId : Nat) (quantity : ℤ) : Except CartError CartState :=
  match findItem catalog itemId with
  | none => .error .itemNotFound
  | some it =>
    if quantity > (it.countInStock : ℤ) then .error .insufficientStock
    else
      match cartOpt with
      | none => .error .cartNotFound
      | some cart =>
        match lookupLine cart.items itemId with
        | none => .error .itemNotInCart
        | some _ =>
          if quantity ≤ 0 then .ok (saveCart cart.user (removeLine cart.items itemId))
          else .ok (saveCart cart.user (setQty cart.items itemId quantity))

/-- Controller `removeItemFromCart`: 404 without a cart or without the
line, otherwise splice the line out and persist. -/
def removeItemFromCart (cartOpt : Option CartState) (itemId : Nat) :
    Except CartError CartState :=
  match cartOpt with
  | none => .error .cartNotFound
  | some cart =>
    match lookupLine cart.items itemId with
    | none => .error .itemNotInCart
    | some _ => .ok (saveCart cart.user (removeLine cart.items itemId))

/-- Model method `cartSchema.methods.updateItemQuantity`
(src/backend/src/models/Cart.js): with the line present it removes
(quantity ≤ 0) or overwrites and saves; with the line absent it
returns the document untouched — a no-op, not an error. -/
def updateItemQuantity (cart : CartState) (itemId : Nat) (quantity : ℤ) : CartState :=
  match lookupLine cart.items itemId with
  | some _ =>
    if quantity ≤ 0 then saveCart cart.user (removeLine cart.items itemId)
    else saveCart cart.user (setQty cart.items itemId quantity)
  | none => cart

/-- The filter predicate of controller `getCart`:
`cartItem.item && cartItem.item.countInStock > 0` after populating the
line's item — the referenced catalog row must exist and have positive
stock. -/
def validLine (catalog : List Item9) (ci : CItem) : Bool :=
  match findItem catalog ci.item with
  | some it => 0 < it.countInStock
  | none => false

/-- Controller `getCart` acting on an existing stored cart: filter out
lines whose item was removed or is out of stock and, if anything was
filtered, write the shrunken cart back (`cart.save()`); otherwise the
stored document is left as it was. -/
def getCart (catalog : List Item9) (cart : CartState) : CartState :=
  let validItems := cart.items.filter (validLine catalog)
  if validItems.length ≠ cart.items.length then saveCart cart.user validItems
  else cart

/-! ## Node backend: backend/controllers/orders.js `createOrder` with
backend/models/Order.js — the repository's only Order schema, the one
this controller `require`s — and backend/models/Product.js.

A decisive detail of this pairing: `orderItemSchema` declares the
paths `item` (required, ref 'Item'), `name`, `image`, `price`,
`quantity`, while the controller builds each line as the plain object
`{name, quantity, image, price, product}`.  Mongoose casting drops
the unknown `product` key and leaves the required `item` path unset,
so `order.save()` is rejected with a validation error on every call:
the checkout never persists an order, although the inventory
decrements issued earlier in the map loop have already been saved. -/

/-- Mongoose `Product` (backend/models/Product.js): the fields touched
by `createOrder`. -/
structure Product where
  id : Nat
  name : String
  image : String
  price : ℚ
  inventory : ℤ
deriving Repr, DecidableEq

/-- One entry of the client-supplied `orderItems` array: a product
reference, a quantity, and the client's stale price snapshot. -/
structure ClientOrderItem where
  product : Nat
  quantity : Nat
  price : ℚ
deriving Repr, DecidableEq

/-- The plain object the controller's `orderItems.map` loop builds for
each line: `{name, quantity, image, price, product}`.  Note its key is
`product` — it is not a schema line; the Order schema's line path is
`item`, which this object never carries. -/
structure DBOrderItem where
  name : String
  quantity : Nat
  image : String
  price : ℚ
  product : Nat
deriving Repr, DecidableEq

/-- One line of `orderItemSchema` (backend/models/Order.js) as stored
on the Order document: the schema's declared paths.  `item` is
`Option` because a document path may be unset — and in this flow it
always is, since the controller never supplies an `item` key. -/
structure OrderItemDoc where
  item : Option Nat
  name : String
  image : String
  price : ℚ
  quantity : Nat
deriving Repr, DecidableEq

/-- Mongoose casting of the controller-built plain object into
`orderItemSchema`: the declared paths (`name`, `image`, `price`,
`quantity`) are copied, the unknown `product` key is dropped (strict
mode), and the required `item` path is left unset. -/
def castOrderItem (l : DBOrderItem) : OrderItemDoc :=
  { item := none, name := l.name, image := l.image, price := l.price,
    quantity := l.quantity }

/-- Mongoose required-path validation of one order line: `item` is
required by `orderItemSchema` ('Item is required'), so the line is
valid only when that path is set.  (The remaining line paths are
always supplied by the controller's object.) -/
def orderItemValid (d : OrderItemDoc) : Bool := d.item.isSome

/-- Mongoose `Order` (backend/models/Order.js): the order lines as
cast into the schema, and the pricing fields. -/
structure NodeOrder where
  orderItems : List OrderItemDoc
  itemsPrice : ℚ
  taxPrice : ℚ
  shippingPrice : ℚ
  totalPrice : ℚ
deriving Repr, DecidableEq

/-- Errors surfaced by `createOrder`: the explicit throws of the
controller, plus the Mongoose `ValidationError` with which
`order.save()` rejects (caught by the controller's try/catch and
passed to `next`). -/
inductive NodeOrderError
  | noOrderItems
  | productNotFound (id : Nat)
  | notEnoughStock (name : String)
  | validationFailed
deriving Repr, DecidableEq

/-- `Product.find({_id: {$in: ...}})` followed by
`itemsFromDB.find(...)`: look the product up by id. -/
def findProduct (ps : List Product) (id : Nat) : Option Product :=
  ps.find? (fun p => p.id == id)

/-- `matchingItem.inventory -= qty; matchingItem.save()`: persist the
decremented inventory of one product. -/
def decrementInventory (ps : List Product) (id : Nat) (q : Nat) : List Product :=
  ps.map (fun p => if p.id == id then { p with inventory := p.inventory - q } else p)

/-- The `orderItems.map(itemFromClient => ...)` loop of `createOrder`:
sequentially resolve each client line against the products, throw on a
missing product or short stock, decrement the product's inventory
(persisted immediately, so a later throw keeps earlier decrements),
and emit a frozen line built from the product's current name, image
and price — the client's price snapshot is never consulted. -/
def buildDbItems : List Product → List ClientOrderItem →
    List Product × Except NodeOrderError (List DBOrderItem)
  | ps, [] => (ps, .ok [])
  | ps, i :: rest =>
    match findProduct ps i.product with
    | none => (ps, .error (.productNotFound i.product))
    | some m =>
      if m.inventory < (i.quantity : ℤ) then (ps, .error (.notEnoughStock m.name))
      else
        match buildDbItems (decrementInventory ps i.product i.quantity) rest with
        | (ps', .error e) => (ps', .error e)
        | (ps', .ok ds) =>
          (ps', .ok ({ name := m.name, quantity := i.quantity, image := m.image,
                       price := m.price, product := i.product } :: ds))

/-- `orderSchema.pre('save')` (backend/models/Order.js): recompute
`itemsPrice` from the stored lines, shipping as 10 below the 100
free-shipping threshold, tax as `Number((0.1*itemsPrice).toFixed(2))`,
and the total as their sum — overwriting whatever the client sent. -/
def orderPreSave (o : NodeOrder) : NodeOrder :=
  let itemsPrice := o.orderItems.foldl (fun acc it => acc + it.price * (it.quantity : ℚ)) 0
  let shippingPrice : ℚ := if itemsPrice > 100 then 0 else 10
  let taxPrice := round2 ((1 / 10) * itemsPrice)
  { o with itemsPrice := itemsPrice, shippingPrice := shippingPrice,
           taxPrice := taxPrice,
           totalPrice := itemsPrice + shippingPrice + taxPrice }

/-- `order.save()`: Mongoose validates the document — shown here for
the order-line subdocuments, whose required `item` path decides this
flow; the other required paths are caller-supplied — and rejects with
a `ValidationError` when a line is invalid (validate middleware fires
before the `pre('save')` hooks).  Only a valid document runs the
pricing hook and is persisted. -/
def orderSave (o : NodeOrder) : Except NodeOrderError NodeOrder :=
  if o.orderItems.all orderItemValid then .ok (orderPreSave o)
  else .error .validationFailed

/-- Controller `createOrder` (backend/controllers/orders.js): reject an
empty `orderItems` array, build the line objects (decrementing and
persisting product inventory as it goes), construct the Order document
— casting each line into `orderItemSchema` — and `order.save()` it.
The save validates the document first and recomputes the pricing
fields from the stored lines only when validation passes; a rejected
save surfaces as an error after the inventory decrements have already
been persisted. -/
def createOrder (ps : List Product) (orderItems : List ClientOrderItem)
    (clientItemsPrice clientTaxPrice clientShippingPrice clientTotalPrice : ℚ) :
    List Product × Except NodeOrderError NodeOrder :=
  if orderItems.isEmpty then (ps, .error .noOrderItems)
  else
    match buildDbItems ps orderItems with
    | (ps', .error e) => (ps', .error e)
    | (ps', .ok ds) =>
      match orderSave
          { orderItems := ds.map castOrderItem, itemsPrice := clientItemsPrice,
            taxPrice := clientTaxPrice, shippingPrice := clientShippingPrice,
            totalPrice := clientTotalPrice } with
      | .error e => (ps', .error e)
      | .ok o => (ps', .ok o)

/-! ## Node backend: backend/models/Cart.js `calculateTotals` -/

/-- `CartSchema.methods.calculateTotals` (backend/models/Cart.js):
subtotal as the plain sum, tax as
`parseFloat((subTotal*0.1).toFixed(2))`, total as
`parseFloat((subTotal+tax).toFixed(2))` — no shipping component.
Returns (subTotal, tax, total). -/
def calculateTotals (items : List CItem) : ℚ × ℚ × ℚ :=
  let subTotal := items.foldl (fun s i => s + i.price * (i.quantity : ℚ)) 0
  let tax := round2 (subTotal * (1 / 10))
  let total := round2 (subTotal + tax)
  (subTotal, tax, total)

/-- Modelled from the spec (§4.2 derived-totals formula), for
comparison with the code's totals: subtotal, tax rounded to 2
decimals, shipping 0 above the free-shipping threshold else the flat
fee, every intermediate rounded independently. -/
def specCartTotal (taxRate freeShippingThreshold flatShippingFee : ℚ)
    (items : List CItem) : ℚ :=
  let subtotal := items.foldl (fun s i => s + i.price * (i.quantity : ℚ)) 0
  let tax := round2 (subtotal * taxRate)
  let shipping := if subtotal > freeShippingThreshold then 0 else flatShippingFee
  round2 (subtotal + tax + shipping)

/-! ## Sequences of cart operations -/

/-- One request against the cart routes of
src/backend/src/controllers/cartController.js. -/
inductive CartOp
  | add (itemId : Nat) (q : ℤ)
  | update (itemId : Nat) (q : ℤ)
  | removeIt (itemId : Nat)
deriving Repr, DecidableEq

/-- Apply one request: a successful call persists the new cart state,
an error response leaves the stored cart as it was. -/
def applyCartOp (catalog : List Item9) (u : Nat) (s : Option CartState) :
    CartOp → Option CartState
  | .add i q =>
    match addItemToCart catalog u s i q with
    | .ok c => some c
    | .error _ => s
  | .update i q =>
    match updateCartItem catalog s i q with
    | .ok c => some c
    | .error _ => s
  | .removeIt i =>
    match removeItemFromCart s i with
    | .ok c => some c
    | .error _ => s

/-- Run a sequence of cart requests for one user. -/
def runCartOps (catalog : List Item9) (u : Nat) (s : Option CartState)
    (ops : List CartOp) : Option CartState :=
  ops.foldl (applyCartOp catalog u) s

/-! ## Sample states used by witnesses and counterexamples -/

/-- A Go database with one catalog item (price 10), one open cart for
user 7 holding two units of it, and no orders yet. -/
def goDbSample : GoDB :=
  { items := [{ id := 42, name := "Widget", price := 10 }],
    carts := [{ id := 1, userId := 7, isCheckedOut := false, checkedOutAt := none }],
    cartItems := [{ cartId := 1, itemId := 42, quantity := 2 }],
    orders := [], nextOrderId := 1 }

/-- A Go database with no cart at all. -/
def goDbNoCart : GoDB :=
  { items := [{ id := 42, name := "Widget", price := 10 }],
    carts := [], cartItems := [], orders := [], nextOrderId := 1 }

/-- A Go database whose only open cart has no lines. -/
def goDbEmptyCart : GoDB :=
  { items := [{ id := 42, name := "Widget", price := 10 }],
    carts := [{ id := 1, userId := 7, isCheckedOut := false, checkedOutAt := none }],
    cartItems := [], orders := [], nextOrderId := 1 }

/-! ## C1: atomicity of the Go checkout -/

/-- C1: every run of the Go `CreateOrder` handler is atomic: on any
error outcome (no active cart, empty cart, or a failed in-transaction
write/commit) the database is returned exactly as it was — the cart
still open, no order row added; on the success outcome the new order
is appended and the source open cart (which was open before the call)
is marked checked out, in the same committed state. -/
theorem c1_checkout_atomic (db : GoDB) (u now : Nat) (commitOk : Bool) :
    (∀ e, (CreateOrder db u now commitOk).1 = .error e →
        (CreateOrder db u now commitOk).2 = db) ∧
    (∀ o, (CreateOrder db u now commitOk).1 = .ok o →
        ∃ cart, findOpenCart db u = some cart ∧ cart.isCheckedOut = false ∧
          (CreateOrder db u now commitOk).2 =
            { db with
                orders := db.orders ++ [o],
                carts := markCheckedOut db.carts cart.id now,
                nextOrderId := db.nextOrderId + 1 }) := by
  unfold CreateOrder
  cases h : findOpenCart db u with
  | none => simp
  | some cart =>
    have hopen : cart.isCheckedOut = false := by
      have hp := List.find?_some h
      simp only [Bool.and_eq_true, Bool.not_eq_true'] at hp
      exact hp.2
    by_cases he : (cartItemsOf db cart.id).isEmpty
    · simp [he]
    · cases commitOk with
      | false => simp [he]
      | true =>
        simp only [he, if_true, if_false, Bool.false_eq_true]
        refine ⟨fun e h' => absurd h' (by simp), fun o h' => ⟨cart, rfl, hopen, ?_⟩⟩
        simp only [Except.ok.injEq] at h'
        rw [← h']

/-- Witness for C1 at concrete inputs: a failed commit leaves the
sample database untouched, and a successful run appends the order and
closes the cart. -/
theorem c1_checkout_atomic_witness :
    (CreateOrder goDbSample 7 0 false).2 = goDbSample ∧
    (CreateOrder goDbSample 7 0 true).2 =
      { goDbSample with
          orders := goDbSample.orders ++
            [{ id := 1, userId := 7, cartId := 1, total := 20, status := "completed" }],
          carts := markCheckedOut goDbSample.carts 1 0,
          nextOrderId := 2 } := by
  constructor
  · exact (c1_checkout_atomic goDbSample 7 0 false).1 GoCheckoutError.commitFailed
      (by simp [CreateOrder, goDbSample, findOpenCart, cartItemsOf])
  · obtain ⟨cart, hcart, -, hdb⟩ :=
      (c1_checkout_atomic goDbSample 7 0 true).2
        { id := 1, userId := 7, cartId := 1, total := 20, status := "completed" }
        (by simp [CreateOrder, goDbSample, findOpenCart, cartItemsOf, goOrderTotal, itemPrice]
            norm_num)
    have hc : cart = { id := 1, userId := 7, isCheckedOut := false, checkedOutAt := none } := by
      simpa [goDbSample, findOpenCart] using hcart.symm
    rw [hdb, hc]
    simp [goDbSample]

/-! ## C5: checkout validation failures -/

/-- C5: the Go checkout fails with the no-active-cart error when the
user has no open cart, and with the empty-cart error when the open
cart has no lines; in both cases the returned database is exactly the
input one — no order created, nothing mutated. -/
theorem c5_checkout_validation (db : GoDB) (u now : Nat) (commitOk : Bool) :
    (findOpenCart db u = none →
        CreateOrder db u now commitOk = (.error .noActiveCart, db)) ∧
    (∀ cart, findOpenCart db u = some cart → cartItemsOf db cart.id = [] →
        CreateOrder db u now commitOk = (.error .emptyCart, db)) := by
  constructor
  · intro h; unfold CreateOrder; rw [h]
  · intro cart h he; unfold CreateOrder; rw [h]; simp [he]

/-- Witness for C5: user 7 has no cart in `goDbNoCart` and an empty
open cart in `goDbEmptyCart`; checkout answers the two validation
errors and returns the databases unchanged. -/
theorem c5_checkout_validation_witness :
    CreateOrder goDbNoCart 7 0 true = (.error .noActiveCart, goDbNoCart) ∧
    CreateOrder goDbEmptyCart 7 0 true = (.error .emptyCart, goDbEmptyCart) := by
  constructor
  · exact (c5_checkout_validation goDbNoCart 7 0 true).1
      (by simp [goDbNoCart, findOpenCart])
  · exact (c5_checkout_validation goDbEmptyCart 7 0 true).2
      { id := 1, userId := 7, isCheckedOut := false, checkedOutAt := none }
      (by simp [goDbEmptyCart, findOpenCart])
      (by simp [goDbEmptyCart, cartItemsOf])

/-! ## C2: is an order's read-back frozen? -/

/-- C2 counterexample: in `goDbSample` the catalog price at checkout
time is 10 and checkout computes total 20 from it; after the catalog
price of item 42 is changed to 12, the Go order-history view
`GetUserOrders` reports the line's unit price as 12, not the 10 it was
computed from at checkout time — the read-back is not identical. -/
theorem c2_counterexample :
    itemPrice goDbSample 42 = 10 ∧
    (CreateOrder goDbSample 7 0 true).1 =
      .ok { id := 1, userId := 7, cartId := 1, total := 20, status := "completed" } ∧
    GetUserOrders (setItemPrice (CreateOrder goDbSample 7 0 true).2 42 12) 7 =
      [{ id := 1, total := 20,
         lines := [{ id := 42, name := "Widget", price := 12, quantity := 2 }] }] ∧
    (10 : ℚ) < 12 := by
  refine ⟨by simp [itemPrice, goDbSample], ?_, ?_, by norm_num⟩
  · simp [CreateOrder, goDbSample, findOpenCart, cartItemsOf, goOrderTotal, itemPrice]
    norm_num
  · simp [CreateOrder, goDbSample, findOpenCart, cartItemsOf, goOrderTotal, itemPrice,
      GetUserOrders, setItemPrice, markCheckedOut, goItemName]
    norm_num

/-- C2 amended: what the Go order history keeps frozen under a later
catalog price change is each order's id and stored total and each
line's item id and quantity; the line's displayed unit price (and
name) are re-read from the live catalog at view time, so they are not
frozen. -/
theorem c2_amended_totals_frozen (db : GoDB) (u itemId : Nat) (p : ℚ) :
    (GetUserOrders (setItemPrice db itemId p) u).map
        (fun v => (v.id, v.total, v.lines.map (fun l => (l.id, l.quantity))))
      = (GetUserOrders db u).map
        (fun v => (v.id, v.total, v.lines.map (fun l => (l.id, l.quantity)))) := by
  unfold GetUserOrders setItemPrice
  simp only [List.map_map]
  congr 1
  funext o
  simp [Function.comp, cartItemsOf]

/-! ## C3: does checkout persist re-derived prices? -/

/-- A successful run of the `orderItems.map` loop over a non-empty
client list yields a non-empty line list. -/
theorem buildDbItems_ok_cons {ps ps' : List Product} {i : ClientOrderItem}
    {rest : List ClientOrderItem} {ds : List DBOrderItem}
    (h : buildDbItems ps (i :: rest) = (ps', .ok ds)) :
    ∃ l ds1, ds = l :: ds1 := by
  unfold buildDbItems at h
  cases hf : findProduct ps i.product with
  | none => rw [hf] at h; simp at h
  | some m =>
    rw [hf] at h
    dsimp only at h
    by_cases hinv : m.inventory < (i.quantity : ℤ)
    · rw [if_pos hinv] at h; simp at h
    · rw [if_neg hinv] at h
      cases hb : buildDbItems (decrementInventory ps i.product i.quantity) rest with
      | mk ps1 r =>
        rw [hb] at h
        cases r with
        | error e => simp at h
        | ok ds1 =>
          dsimp only at h
          simp only [Prod.mk.injEq, Except.ok.injEq] at h
          exact ⟨_, _, h.2.symm⟩

/-- Every cast order line fails the schema's required-`item` check,
so a non-empty cast line list never validates. -/
theorem orderSave_rejects_cast {ds : List DBOrderItem} {a b c d : ℚ} {l : DBOrderItem}
    {ds1 : List DBOrderItem} (hds : ds = l :: ds1) :
    orderSave { orderItems := ds.map castOrderItem, itemsPrice := a,
                taxPrice := b, shippingPrice := c, totalPrice := d } =
      .error .validationFailed := by
  subst hds
  simp [orderSave, castOrderItem, orderItemValid]

/-- The Node catalog at scenario E: product 42 currently costs 12 with
5 in stock. -/
def nodeProducts : List Product :=
  [{ id := 42, name := "Widget", image := "img", price := 12, inventory := 5 }]

/-- The client checks out two units of product 42 with a stale price
snapshot of 10. -/
def nodeClientItems : List ClientOrderItem :=
  [{ product := 42, quantity := 2, price := 10 }]

/-- The catalog after that checkout attempt: inventory decremented
to 3 (the decrement is persisted before the order save runs). -/
def nodeProductsAfter : List Product :=
  [{ id := 42, name := "Widget", image := "img", price := 12, inventory := 3 }]

/-- Concrete Node checkout run at scenario E, shared by several
proofs: the inventory decrement is persisted, but `order.save()` is
rejected by the Order schema's required-`item` validation, so no
order is created. -/
theorem createOrder_sample_run :
    createOrder nodeProducts nodeClientItems 0 0 0 0 =
      (nodeProductsAfter, .error .validationFailed) := by
  simp [createOrder, nodeProducts, nodeClientItems, nodeProductsAfter,
    buildDbItems, findProduct, decrementInventory, orderSave, castOrderItem,
    orderItemValid]

/-- C3: the checkout loop does re-derive each line's unit price from
the catalog — at scenario E (snapshot 10, catalog current price 12)
it builds the line object with price 12 — but the controller keys
that object `product` while `orderItemSchema` requires the `item`
path, so `order.save()` rejects the document: this checkout returns a
validation error with no order created (and the inventory already
decremented), and in fact no call of `createOrder` ever returns an
order at all. -/
theorem c3_checkout_blocked_by_schema :
    (buildDbItems nodeProducts nodeClientItems).2 =
      .ok [{ name := "Widget", quantity := 2, image := "img",
             price := 12, product := 42 }] ∧
    createOrder nodeProducts nodeClientItems 0 0 0 0 =
      (nodeProductsAfter, .error .validationFailed) ∧
    (∀ (ps : List Product) (itemsC : List ClientOrderItem) (a b c d : ℚ),
        ∃ e, (createOrder ps itemsC a b c d).2 = .error e) := by
  refine ⟨?_, createOrder_sample_run, ?_⟩
  · simp [buildDbItems, nodeProducts, nodeClientItems, findProduct, decrementInventory]
  · intro ps itemsC a b c d
    cases itemsC with
    | nil => exact ⟨.noOrderItems, by simp [createOrder]⟩
    | cons i rest =>
      unfold createOrder
      rw [if_neg (by simp)]
      cases hb : buildDbItems ps (i :: rest) with
      | mk ps1 r =>
        cases r with
        | error e => exact ⟨e, rfl⟩
        | ok ds =>
          obtain ⟨l, ds1, hds⟩ := buildDbItems_ok_cons hb
          refine ⟨.validationFailed, ?_⟩
          dsimp only
          rw [orderSave_rejects_cast hds]

/-! ## C4: what the persisted cart totals actually are -/

/-- Sample catalog for the cart controller: item 42 at price 10 with
ample stock. -/
def catalogTen : List Item9 :=
  [{ id := 42, name := "Widget", image := "img", price := 10, countInStock := 100 }]

/-- The cart line produced by adding two units of item 42 at price 10. -/
def cartLineSample : CItem :=
  { item := 42, name := "Widget", image := "img", price := 10, quantity := 2 }

/-- Concrete run shared by several witnesses: adding two units of item
42 to a user with no cart creates and persists a one-line cart. -/
theorem addItemToCart_sample_run :
    addItemToCart catalogTen 1 none 42 2 = .ok (saveCart 1 [cartLineSample]) := by
  simp [addItemToCart, catalogTen, findItem, theCart, lookupLine, cartLineSample]

/-- Every successful `addItemToCart` response is a cart persisted
through the `pre('save')` hook. -/
theorem addItemToCart_ok_shape {catalog : List Item9} {u : Nat} {cartOpt : Option CartState}
    {itemId : Nat} {q : ℤ} {c : CartState}
    (h : addItemToCart catalog u cartOpt itemId q = .ok c) :
    ∃ u' l, c = saveCart u' l := by
  unfold addItemToCart at h
  split at h
  · exact absurd h (by simp)
  · split at h
    · exact absurd h (by simp)
    · dsimp only at h
      split at h
      · split at h
        · exact absurd h (by simp)
        · simp only [Except.ok.injEq] at h
          exact ⟨_, _, h.symm⟩
      · simp only [Except.ok.injEq] at h
        exact ⟨_, _, h.symm⟩

/-- Every successful `updateCartItem` response is a cart persisted
through the `pre('save')` hook. -/
theorem updateCartItem_ok_shape {catalog : List Item9} {cartOpt : Option CartState}
    {itemId : Nat} {q : ℤ} {c : CartState}
    (h : updateCartItem catalog cartOpt itemId q = .ok c) :
    ∃ u' l, c = saveCart u' l := by
  unfold updateCartItem at h
  split at h
  · exact absurd h (by simp)
  · split at h
    · exact absurd h (by simp)
    · split at h
      · exact absurd h (by simp)
      · split at h
        · exact absurd h (by simp)
        · split at h <;>
          · simp only [Except.ok.injEq] at h
            exact ⟨_, _, h.symm⟩

/-- Every successful `removeItemFromCart` response is a cart persisted
through the `pre('save')` hook. -/
theorem removeItemFromCart_ok_shape {cartOpt : Option CartState} {itemId : Nat} {c : CartState}
    (h : removeItemFromCart cartOpt itemId = .ok c) :
    ∃ u' l, c = saveCart u' l := by
  unfold removeItemFromCart at h
  split at h
  · exact absurd h (by simp)
  · split at h
    · exact absurd h (by simp)
    · simp only [Except.ok.injEq] at h
      exact ⟨_, _, h.symm⟩

/-- One cart request preserves the persisted-through-the-save-hook
shape of the stored cart. -/
theorem applyCartOp_shape (catalog : List Item9) (u : Nat) (s : Option CartState) (op : CartOp)
    (hs : ∀ c, s = some c → ∃ u' l, c = saveCart u' l) :
    ∀ c, applyCartOp catalog u s op = some c → ∃ u' l, c = saveCart u' l := by
  intro c h
  cases op with
  | add i q =>
    simp only [applyCartOp] at h
    cases hr : addItemToCart catalog u s i q with
    | ok c' =>
      rw [hr] at h; simp only [Option.some.injEq] at h
      exact h ▸ addItemToCart_ok_shape hr
    | error e => rw [hr] at h; exact hs c h
  | update i q =>
    simp only [applyCartOp] at h
    cases hr : updateCartItem catalog s i q with
    | ok c' =>
      rw [hr] at h; simp only [Option.some.injEq] at h
      exact h ▸ updateCartItem_ok_shape hr
    | error e => rw [hr] at h; exact hs c h
  | removeIt i =>
    simp only [applyCartOp] at h
    cases hr : removeItemFromCart s i with
    | ok c' =>
      rw [hr] at h; simp only [Option.some.injEq] at h
      exact h ▸ removeItemFromCart_ok_shape hr
    | error e => rw [hr] at h; exact hs c h

/-- Any stored cart reachable by a request sequence is a cart
persisted through the `pre('save')` hook. -/
theorem runCartOps_shape (catalog : List Item9) (u : Nat) (ops : List CartOp) :
    ∀ s : Option CartState, (∀ c, s = some c → ∃ u' l, c = saveCart u' l) →
      ∀ c, runCartOps catalog u s ops = some c → ∃ u' l, c = saveCart u' l := by
  induction ops with
  | nil => intro s hs c h; exact hs c h
  | cons op rest ih =>
    intro s hs c h
    simp only [runCartOps, List.foldl_cons] at h
    exact ih (applyCartOp catalog u s op) (applyCartOp_shape catalog u s op hs) c h

/-- C4 amended: after every sequence of add/update/remove requests on
one user's cart, the persisted `totalPrice` is the plain subtotal
Σ price·quantity of the current lines and `totalItems` is Σ quantity —
no tax and no shipping component ever enters the stored cart total.
In the other cart model (`calculateTotals`) the stored total is the
two-decimal rounding of subtotal plus rounded 10% tax, still with no
shipping term. -/
theorem c4_amended_cart_totals (catalog : List Item9) (u : Nat) (ops : List CartOp)
    (c : CartState) (h : runCartOps catalog u none ops = some c) :
    c.totalPrice = c.items.foldl (fun t i => t + i.price * (i.quantity : ℚ)) 0 ∧
    c.totalItems = c.items.foldl (fun t i => t + i.quantity) 0 ∧
    (calculateTotals c.items).2.2 = round2 (c.totalPrice + round2 (c.totalPrice * (1 / 10))) := by
  obtain ⟨u', l, rfl⟩ := runCartOps_shape catalog u ops none (by simp) c h
  exact ⟨rfl, rfl, rfl⟩

/-- Witness for C4's amended statement after one concrete add request. -/
theorem c4_amended_cart_totals_witness :
    (saveCart 1 [cartLineSample]).totalPrice =
      (saveCart 1 [cartLineSample]).items.foldl (fun t i => t + i.price * (i.quantity : ℚ)) 0 ∧
    (saveCart 1 [cartLineSample]).totalItems =
      (saveCart 1 [cartLineSample]).items.foldl (fun t i => t + i.quantity) 0 ∧
    (calculateTotals (saveCart 1 [cartLineSample]).items).2.2 =
      round2 ((saveCart 1 [cartLineSample]).totalPrice +
        round2 ((saveCart 1 [cartLineSample]).totalPrice * (1 / 10))) := by
  apply c4_amended_cart_totals catalogTen 1 [CartOp.add 42 2]
  simp only [runCartOps, List.foldl_cons, List.foldl_nil, applyCartOp, addItemToCart_sample_run]

/-- C4 counterexample: a single add of two units at price 10 persists
`totalPrice` 20 (the `calculateTotals` variant would store 22), while
the spec's formula with 10% tax, flat shipping fee 10 and free
shipping above 100 yields 32 — the persisted totals do not include
shipping. -/
theorem c4_counterexample :
    addItemToCart catalogTen 1 none 42 2 = .ok (saveCart 1 [cartLineSample]) ∧
    (saveCart 1 [cartLineSample]).totalPrice = 20 ∧
    (calculateTotals [cartLineSample]).2.2 = 22 ∧
    specCartTotal (1 / 10) 100 10 [cartLineSample] = 32 ∧
    (20 : ℚ) < 32 ∧ (22 : ℚ) < 32 := by
  refine ⟨addItemToCart_sample_run, ?_, ?_, ?_, by norm_num, by norm_num⟩
  · simp [saveCart, cartLineSample]; norm_num
  · simp [calculateTotals, cartLineSample]
    norm_num [round2, Rat.floor_def]
  · simp [specCartTotal, cartLineSample]
    norm_num [round2, Rat.floor_def]

/-! ## C6: what a repeated add does to an existing line -/

/-- The quantity assignment leaves every line's item id, name and
price unchanged. -/
theorem setQty_map_fields (items : List CItem) (itemId : Nat) (q : ℤ) :
    (setQty items itemId q).map (fun l => (l.item, l.name, l.price))
      = items.map (fun l => (l.item, l.name, l.price)) := by
  induction items with
  | nil => rfl
  | cons i rest ih =>
    unfold setQty
    by_cases hi : (i.item == itemId) = true <;> simp [hi, ih]

/-- The quantity assignment leaves the list of item ids unchanged. -/
theorem setQty_map_item (items : List CItem) (itemId : Nat) (q : ℤ) :
    (setQty items itemId q).map (fun l => l.item) = items.map (fun l => l.item) := by
  induction items with
  | nil => rfl
  | cons i rest ih =>
    unfold setQty
    by_cases hi : (i.item == itemId) = true <;> simp [hi, ih]

/-- After the quantity assignment, looking the line up again finds it
with the new quantity and all other fields intact. -/
theorem lookupLine_setQty_self {items : List CItem} {itemId : Nat} {line : CItem} (q : ℤ)
    (h : lookupLine items itemId = some line) :
    lookupLine (setQty items itemId q) itemId = some { line with quantity := q } := by
  induction items with
  | nil => simp [lookupLine] at h
  | cons i rest ih =>
    by_cases hi : (i.item == itemId) = true
    · unfold lookupLine at h
      rw [if_pos hi] at h
      simp only [Option.some.injEq] at h
      unfold setQty
      rw [if_pos hi]
      unfold lookupLine
      rw [if_pos (show (({ i with quantity := q } : CItem).item == itemId) = true from hi)]
      rw [h]
    · unfold lookupLine at h
      rw [if_neg hi] at h
      unfold setQty
      rw [if_neg hi]
      unfold lookupLine
      rw [if_neg hi]
      exact ih h

/-- A failed line lookup means the item id occurs on no line. -/
theorem not_mem_of_lookupLine_none {items : List CItem} {itemId : Nat}
    (h : lookupLine items itemId = none) :
    itemId ∉ items.map (fun l => l.item) := by
  induction items with
  | nil => simp
  | cons i rest ih =>
    unfold lookupLine at h
    by_cases hi : (i.item == itemId) = true
    · rw [if_pos hi] at h; exact absurd h (by simp)
    · rw [if_neg hi] at h
      simp only [List.map_cons, List.mem_cons]
      rintro (h1 | h1)
      · exact hi (by rw [← h1]; exact beq_self_eq_true itemId)
      · exact ih h h1

/-- If the item id occurs on no line, the lookup fails. -/
theorem lookupLine_none_of_not_mem {items : List CItem} {itemId : Nat}
    (h : itemId ∉ items.map (fun l => l.item)) :
    lookupLine items itemId = none := by
  induction items with
  | nil => rfl
  | cons i rest ih =>
    simp only [List.map_cons, List.mem_cons] at h
    push_neg at h
    unfold lookupLine
    rw [if_neg (fun hh => h.1 (Eq.symm (by simpa using hh)))]
    exact ih h.2

/-- Sample catalog where item 42 now costs 12: the price at add time
was 10 (see `cartLineSample`). -/
def catalogTwelve : List Item9 :=
  [{ id := 42, name := "Widget", image := "img", price := 12, countInStock := 100 }]

/-- Concrete repeated add shared by the C6 counterexample and witness:
with line (42, qty 2, snapshot 10) in the cart and catalog price now
12, adding 3 more units yields one line (42, qty 5) that still
carries the snapshot price 10. -/
theorem addItemToCart_repeat_run :
    addItemToCart catalogTwelve 1 (some (saveCart 1 [cartLineSample])) 42 3 =
      .ok (saveCart 1
        [{ item := 42, name := "Widget", image := "img", price := 10, quantity := 5 }]) := by
  simp [addItemToCart, catalogTwelve, findItem, theCart, saveCart, lookupLine,
    cartLineSample, setQty]

/-- C6 amended: a successful add resolves the catalog item; if a line
for it already exists, only that line's quantity is incremented — its
price snapshot, name, and every other line are untouched (in
particular the snapshot is NOT refreshed to the catalog's current
price) and no second line appears; if no line exists, a new line with
a snapshot of the item's current price is appended; per-item
uniqueness of lines is preserved. -/
theorem c6_amended_add_semantics (catalog : List Item9) (u : Nat)
    (cartOpt : Option CartState) (itemId : Nat) (q : ℤ) (c : CartState)
    (h : addItemToCart catalog u cartOpt itemId q = .ok c) :
    ∃ it, findItem catalog itemId = some it ∧
      ((∀ line, lookupLine (theCart u cartOpt).items itemId = some line →
          c.items.map (fun l => (l.item, l.name, l.price))
            = (theCart u cartOpt).items.map (fun l => (l.item, l.name, l.price)) ∧
          lookupLine c.items itemId = some { line with quantity := line.quantity + q }) ∧
       (lookupLine (theCart u cartOpt).items itemId = none →
          c.items = (theCart u cartOpt).items ++
            [{ item := itemId, name := it.name, image := it.image,
               price := it.price, quantity := q }]) ∧
       (((theCart u cartOpt).items.map (fun l => l.item)).Nodup →
          (c.items.map (fun l => l.item)).Nodup)) := by
  unfold addItemToCart at h
  cases hf : findItem catalog itemId with
  | none => rw [hf] at h; exact absurd h (by simp)
  | some it =>
    rw [hf] at h
    dsimp only at h
    by_cases hstock : (it.countInStock : ℤ) < q
    · rw [if_pos hstock] at h; exact absurd h (by simp)
    · rw [if_neg hstock] at h
      refine ⟨it, rfl, ?_⟩
      cases hl : lookupLine (theCart u cartOpt).items itemId with
      | some line =>
        rw [hl] at h
        dsimp only at h
        by_cases hq : line.quantity + q > (it.countInStock : ℤ)
        · rw [if_pos hq] at h; exact absurd h (by simp)
        · rw [if_neg hq] at h
          simp only [Except.ok.injEq] at h
          subst h
          refine ⟨?_, ?_, ?_⟩
          · intro line' hline'
            injection hline' with he
            subst he
            simp only [saveCart]
            exact ⟨setQty_map_fields _ _ _, lookupLine_setQty_self _ hl⟩
          · intro hnone; exact absurd hnone (by simp)
          · intro hnd
            simp only [saveCart]
            rw [setQty_map_item]
            exact hnd
      | none =>
        rw [hl] at h
        dsimp only at h
        simp only [Except.ok.injEq] at h
        subst h
        refine ⟨?_, ?_, ?_⟩
        · intro line' hline'; exact absurd hline' (by simp)
        · intro _; simp only [saveCart]
        · intro hnd
          simp only [saveCart]
          rw [List.map_append]
          refine List.Nodup.append hnd (by simp) ?_
          intro a ha hb
          simp only [List.map_cons, List.map_nil, List.mem_singleton] at hb
          subst hb
          exact not_mem_of_lookupLine_none hl ha

/-- C6 counterexample: the catalog's current price for item 42 is 12,
the cart line's add-time snapshot is 10; the repeated add merges the
quantities into one line of 5 but keeps the snapshot price 10 — it is
not refreshed to the current price 12. -/
theorem c6_counterexample :
    findItem catalogTwelve 42 =
      some { id := 42, name := "Widget", image := "img", price := 12, countInStock := 100 } ∧
    addItemToCart catalogTwelve 1 (some (saveCart 1 [cartLineSample])) 42 3 =
      .ok (saveCart 1
        [{ item := 42, name := "Widget", image := "img", price := 10, quantity := 5 }]) ∧
    (10 : ℚ) < 12 := by
  exact ⟨by simp [findItem, catalogTwelve], addItemToCart_repeat_run, by norm_num⟩

/-- Witness for C6's amended statement on the concrete repeated add:
the merged line keeps quantity 5 and the untouched snapshot. -/
theorem c6_amended_add_semantics_witness :
    lookupLine (saveCart 1
        [{ item := 42, name := "Widget", image := "img", price := 10, quantity := 5 }]).items 42 =
      some { item := 42, name := "Widget", image := "img", price := 10, quantity := 5 } := by
  obtain ⟨it, hit, hsome, -, -⟩ :=
    c6_amended_add_semantics catalogTwelve 1 (some (saveCart 1 [cartLineSample])) 42 3
      (saveCart 1 [{ item := 42, name := "Widget", image := "img", price := 10, quantity := 5 }])
      addItemToCart_repeat_run
  have h2 := (hsome cartLineSample
    (by simp [theCart, saveCart, lookupLine, cartLineSample])).2
  simpa [cartLineSample] using h2

/-! ## C7: what a quantity update does -/

/-- Splicing a line out introduces no new lines. -/
theorem mem_of_mem_removeLine {items : List CItem} {itemId : Nat} {l : CItem}
    (h : l ∈ removeLine items itemId) : l ∈ items := by
  induction items with
  | nil => simp [removeLine] at h
  | cons i rest ih =>
    unfold removeLine at h
    by_cases hi : (i.item == itemId) = true
    · rw [if_pos hi] at h; exact List.mem_cons_of_mem _ h
    · rw [if_neg hi] at h
      rcases List.mem_cons.1 h with h1 | h1
      · rw [h1]; exact List.mem_cons_self _ _
      · exact List.mem_cons_of_mem _ (ih h1)

/-- On a cart without duplicate lines, splicing the line out removes
the item id entirely. -/
theorem lookupLine_removeLine_of_nodup {items : List CItem} {itemId : Nat}
    (h : (items.map (fun l => l.item)).Nodup) :
    lookupLine (removeLine items itemId) itemId = none := by
  induction items with
  | nil => rfl
  | cons i rest ih =>
    simp only [List.map_cons, List.nodup_cons] at h
    obtain ⟨hnotin, hrest⟩ := h
    unfold removeLine
    by_cases hi : (i.item == itemId) = true
    · rw [if_pos hi]
      apply lookupLine_none_of_not_mem
      have hii : i.item = itemId := by simpa using hi
      rw [← hii]
      exact hnotin
    · rw [if_neg hi]
      unfold lookupLine
      rw [if_neg hi]
      exact ih hrest

/-- A positive quantity assignment keeps all quantities positive. -/
theorem setQty_pos {items : List CItem} {itemId : Nat} {q : ℤ}
    (hpos : ∀ l ∈ items, 0 < l.quantity) (hq : 0 < q) :
    ∀ l ∈ setQty items itemId q, 0 < l.quantity := by
  induction items with
  | nil => simp [setQty]
  | cons i rest ih =>
    unfold setQty
    by_cases hi : (i.item == itemId) = true
    · rw [if_pos hi]
      intro l hl
      rcases List.mem_cons.1 hl with h1 | h1
      · rw [h1]; exact hq
      · exact hpos l (List.mem_cons_of_mem _ h1)
    · rw [if_neg hi]
      intro l hl
      rcases List.mem_cons.1 hl with h1 | h1
      · rw [h1]; exact hpos i (List.mem_cons_self _ _)
      · exact ih (fun l' hl' => hpos l' (List.mem_cons_of_mem _ hl')) l h1

/-- C7 amended: on the controller route a successful update requires
the line to exist — with quantity ≤ 0 the line is spliced out (so no
non-positive quantity is ever persisted, and on a duplicate-free cart
the item is gone), with quantity ≥ 1 the line's stored quantity is
overwritten to exactly that value, all other fields and lines
untouched; a missing line is answered with the item-not-in-cart error,
not a no-op.  The no-op-on-absent behaviour lives only in the Cart
model's `updateItemQuantity` method, which returns the document
unchanged. -/
theorem c7_amended_update_semantics :
    (∀ (catalog : List Item9) (cartOpt : Option CartState) (itemId : Nat) (q : ℤ)
        (c cart : CartState),
        updateCartItem catalog cartOpt itemId q = .ok c → cartOpt = some cart →
        ((q ≤ 0 → c.items = removeLine cart.items itemId ∧
            ((cart.items.map (fun l => l.item)).Nodup →
              lookupLine c.items itemId = none)) ∧
         (0 < q → ∀ line, lookupLine cart.items itemId = some line →
            lookupLine c.items itemId = some { line with quantity := q } ∧
            c.items.map (fun l => (l.item, l.name, l.price))
              = cart.items.map (fun l => (l.item, l.name, l.price))) ∧
         ((∀ l ∈ cart.items, 0 < l.quantity) → ∀ l ∈ c.items, 0 < l.quantity))) ∧
    (∀ (cart : CartState) (itemId : Nat) (q : ℤ),
        lookupLine cart.items itemId = none → updateItemQuantity cart itemId q = cart) := by
  constructor
  · intro catalog cartOpt itemId q c cart h hcart
    subst hcart
    unfold updateCartItem at h
    cases hf : findItem catalog itemId with
    | none => rw [hf] at h; exact absurd h (by simp)
    | some it =>
      rw [hf] at h
      dsimp only at h
      by_cases hstock : q > (it.countInStock : ℤ)
      · rw [if_pos hstock] at h; exact absurd h (by simp)
      · rw [if_neg hstock] at h
        cases hl : lookupLine cart.items itemId with
        | none => rw [hl] at h; exact absurd h (by simp)
        | some line =>
          rw [hl] at h
          dsimp only at h
          by_cases hq : q ≤ 0
          · rw [if_pos hq] at h
            simp only [Except.ok.injEq] at h
            subst h
            refine ⟨fun _ => ⟨rfl, fun hnd => ?_⟩,
                    fun hq0 => absurd hq0 (not_lt.mpr hq),
                    fun hpos l hl' => ?_⟩
            · simp only [saveCart]
              exact lookupLine_removeLine_of_nodup hnd
            · simp only [saveCart] at hl'
              exact hpos l (mem_of_mem_removeLine hl')
          · rw [if_neg hq] at h
            simp only [Except.ok.injEq] at h
            subst h
            refine ⟨fun hqle => absurd hqle hq, fun _ line' hline' => ?_, fun hpos l hl' => ?_⟩
            · injection hline' with he
              subst he
              refine ⟨lookupLine_setQty_self _ hl, ?_⟩
              simp only [saveCart]
              exact setQty_map_fields _ _ _
            · simp only [saveCart] at hl'
              exact setQty_pos hpos (not_le.mp hq) l hl'
  · intro cart itemId q h
    unfold updateItemQuantity
    rw [h]

/-- Concrete removal-by-zero update shared by the C7 witness: setting
quantity 0 on the only line empties the cart. -/
theorem updateCartItem_sample_run :
    updateCartItem catalogTen (some (saveCart 1 [cartLineSample])) 42 0 =
      .ok (saveCart 1 []) := by
  simp [updateCartItem, catalogTen, findItem, saveCart, lookupLine, cartLineSample, removeLine]

/-- Witness for C7's amended statement: the zero-quantity update
splices the only line out, and the model method is a no-op on an
absent line. -/
theorem c7_amended_update_semantics_witness :
    (saveCart 1 ([] : List CItem)).items = removeLine (saveCart 1 [cartLineSample]).items 42 ∧
    updateItemQuantity (saveCart 1 ([] : List CItem)) 42 5 = saveCart 1 ([] : List CItem) := by
  constructor
  · exact ((c7_amended_update_semantics.1 catalogTen (some (saveCart 1 [cartLineSample])) 42 0
      (saveCart 1 []) (saveCart 1 [cartLineSample]) updateCartItem_sample_run rfl).1
      (by norm_num)).1
  · exact c7_amended_update_semantics.2 (saveCart 1 []) 42 5 rfl

/-- C7 counterexample: with no line for item 42 in the cart, the
controller's update with quantity 0 answers the item-not-in-cart
error instead of being a no-op success. -/
theorem c7_counterexample :
    lookupLine (saveCart 1 ([] : List CItem)).items 42 = none ∧
    updateCartItem catalogTen (some (saveCart 1 ([] : List CItem))) 42 0 =
      .error .itemNotInCart := by
  constructor
  · rfl
  · simp [updateCartItem, catalogTen, findItem, saveCart, lookupLine]

/-! ## C8: does the core write to the catalog? -/

/-- Inventory decrements leave every product's id, name and price
unchanged, position by position. -/
theorem decrementInventory_map_frame (ps : List Product) (id : Nat) (q : Nat) :
    (decrementInventory ps id q).map (fun p => (p.id, p.name, p.price))
      = ps.map (fun p => (p.id, p.name, p.price)) := by
  induction ps with
  | nil => rfl
  | cons p rest ih =>
    simp only [decrementInventory, List.map_cons] at ih ⊢
    by_cases hp : (p.id == id) = true
    · rw [if_pos hp, ih]
    · rw [if_neg hp, ih]

/-- The `orderItems.map` loop of the Node checkout changes only
inventories: ids, names and prices of the catalog come out as they
went in, whether the loop succeeds or throws midway. -/
theorem buildDbItems_fst_frame :
    ∀ (itemsC : List ClientOrderItem) (ps : List Product),
      ((buildDbItems ps itemsC).1.map (fun p => (p.id, p.name, p.price)))
        = ps.map (fun p => (p.id, p.name, p.price)) := by
  intro itemsC
  induction itemsC with
  | nil => intro ps; rfl
  | cons i rest ih =>
    intro ps
    unfold buildDbItems
    cases hf : findProduct ps i.product with
    | none => rfl
    | some m =>
      dsimp only
      by_cases hinv : m.inventory < (i.quantity : ℤ)
      · rw [if_pos hinv]
      · rw [if_neg hinv]
        cases hb : buildDbItems (decrementInventory ps i.product i.quantity) rest with
        | mk ps1 r =>
          have hfr := ih (decrementInventory ps i.product i.quantity)
          rw [hb] at hfr
          cases r <;> dsimp only <;> rw [hfr, decrementInventory_map_frame]

/-- C8 amended: the Go checkout and all Go cart operations leave every
catalog item row untouched (the Go transaction writes only carts,
cart items and orders), and the Node cart controller reads the
catalog without writing; but the Node `createOrder` does write the
catalog — it decrements each ordered product's inventory count, a
write that persists even when the order save itself is rejected.
Everything other than the inventory field (id, name, price) is left
unchanged even by it. -/
theorem c8_amended_catalog_frame :
    (∀ (db : GoDB) (u now : Nat) (ck : Bool),
        ((CreateOrder db u now ck).2).items = db.items) ∧
    (∀ (ps : List Product) (itemsC : List ClientOrderItem) (a b c d : ℚ),
        ((createOrder ps itemsC a b c d).1.map (fun p => (p.id, p.name, p.price)))
          = ps.map (fun p => (p.id, p.name, p.price))) := by
  constructor
  · intro db u now ck
    unfold CreateOrder
    cases findOpenCart db u with
    | none => rfl
    | some cart =>
      by_cases he : (cartItemsOf db cart.id).isEmpty
      · simp [he]
      · cases ck <;> simp [he]
  · intro ps itemsC a b c d
    unfold createOrder
    by_cases hemp : itemsC.isEmpty
    · rw [if_pos hemp]
    · rw [if_neg hemp]
      cases hb : buildDbItems ps itemsC with
      | mk ps1 r =>
        have hfr := buildDbItems_fst_frame itemsC ps
        rw [hb] at hfr
        cases r with
        | error e => exact hfr
        | ok ds =>
          dsimp only
          split <;> exact hfr

/-- C8 counterexample: the Node checkout run at scenario E decrements
product 42's persisted inventory from 5 to 3 — a write to a Catalog
Item performed by the checkout call itself, and one that persists
even though the subsequent order save is rejected. -/
theorem c8_counterexample :
    createOrder nodeProducts nodeClientItems 0 0 0 0 =
      (nodeProductsAfter, .error .validationFailed) ∧
    (nodeProducts.map fun p => p.inventory) = [5] ∧
    (nodeProductsAfter.map fun p => p.inventory) = [3] ∧
    (3 : ℤ) < 5 := by
  exact ⟨createOrder_sample_run, by simp [nodeProducts], by simp [nodeProductsAfter],
    by norm_num⟩

/-! ## C10: the cart view is not read-only -/

/-- C10: `getCart` on a stored cart keeps the owning user, and the
stored line items afterwards are exactly the original ones whose
referenced catalog item still exists with positive stock — lines
whose item was deleted or has `countInStock = 0` are removed and the
shrunken cart is persisted, all surviving lines kept unchanged and in
order. -/
theorem c10_getCart_prunes_and_persists (catalog : List Item9) (cart : CartState) :
    (getCart catalog cart).user = cart.user ∧
    (getCart catalog cart).items = cart.items.filter (validLine catalog) ∧
    (∀ ci : CItem, validLine catalog ci = true ↔
        ∃ it, findItem catalog ci.item = some it ∧ 0 < it.countInStock) := by
  refine ⟨?_, ?_, ?_⟩
  · unfold getCart
    dsimp only
    by_cases hlen : (cart.items.filter (validLine catalog)).length ≠ cart.items.length
    · rw [if_pos hlen]; rfl
    · rw [if_neg hlen]
  · unfold getCart
    dsimp only
    by_cases hlen : (cart.items.filter (validLine catalog)).length ≠ cart.items.length
    · rw [if_pos hlen]; rfl
    · rw [if_neg hlen]
      push_neg at hlen
      exact ((List.filter_sublist _).eq_of_length hlen).symm
  · intro ci
    unfold validLine
    cases hf : findItem catalog ci.item with
    | none => simp
    | some it => simp

